import Mathlib

/-!
# Verification of the EAP test orchestration engine (radius_eap_tester)

Shallow embedding of `src/radius/radius_eap_tester/eap_tests.py` and
`src/radius/radius_eap_tester/config.py`:

* `EAPTest` mirrors the `EAPTest` dataclass (name, config dict, requires_password, enabled).
* Method-specific settings dicts are modelled as association lists `List (String × String)`
  with Python dict semantics (`dictGet`, `dictSet`: update in place, insert at the end).
* The environment of a single `run_test` call is a `World`: the set of paths that exist on
  disk, the unique temp-file name allocated by `tempfile.NamedTemporaryFile`, whether the
  `update_key` rewrite of the temp file succeeds, and the behaviour of the spawned
  `eapol_test` process (exit code + stderr, or `FileNotFoundError`).
* `run_test` returns a `RunOutput` recording the Python return value (`result = none` models
  an exception propagating out of `run_test`), whether `subprocess.run` was reached, whether
  the temp artifact was created and whether it still exists after the call, the exact
  command-line list handed to `subprocess.run`, and the final state of the (mutated) test.
* `run_all_tests` embeds the sequential branch of `EAPTestor.run_all_tests` (filter to
  enabled tests, run in order, abort on a propagated exception); `pool_collect` embeds the
  parallel branch's `ThreadPoolExecutor.map` aggregation: workers complete in an arbitrary
  schedule `σ`, and `executor.map` hands results back indexed by input position.
* `applyEnvOverrides` embeds the environment-override loop at the end of
  `config.load_config` (keys secretkey / private_key_password / password, env names
  `EAPTESTOR_<KEY>`, Python truthiness: unset or empty string means keep the document value).
-/

namespace RadiusEAPTester

/-- The `EAPTest` dataclass of `eap_tests.py`. -/
structure EAPTest where
  name : String
  config : List (String × String)
  requires_password : Bool
  enabled : Bool
deriving Repr, DecidableEq

/-- The `server` section of the configuration document (fields required by
`CONFIG_SCHEMA` in `config.py`). -/
structure Server where
  ipaddress : String
  port : Nat
  secretkey : String
  private_key_password : String
  identity : String
  password : String
deriving Repr, DecidableEq

/-- Behaviour of the external `eapol_test` process for one invocation:
either it runs and exits with a code and captured stderr, or the binary is
missing (`subprocess.run` raises `FileNotFoundError`). -/
inductive ProcBehavior where
  | exits (code : Nat) (stderr : String)
  | execMissing
deriving Repr, DecidableEq

/-- The environment one `run_test` call runs in.  `updateWriteOk` is whether the
`update_key` rewrite of the temp artifact succeeds; `unlinkOk` is whether the
best-effort `os.unlink` in the `finally` block succeeds (its failure is caught
and downgraded to a warning, leaving the artifact behind). -/
structure World where
  fs : List String
  tempName : String
  updateWriteOk : Bool
  unlinkOk : Bool
  proc : ProcBehavior
deriving Repr, DecidableEq

/-- One entry of the results list: the dict
`{"name": ..., "status": ..., "error": ...}` built by `run_test`. -/
structure TestResult where
  name : String
  status : String
  error : Option String
deriving Repr, DecidableEq

/-- Observable outcome of one `run_test` call.  `result = none` models a Python
exception propagating out of `run_test`; `spawned` records whether control
reached the `subprocess.run` call; `tempCreated` / `tempExistsAfter` track the
temporary config artifact; `cmd` is the argument list handed to `subprocess.run`
(when one was built); `test'` is the `EAPTest` object as it stands after the
call (its `config` dict may have been mutated by `update_key`). -/
structure RunOutput where
  result : Option TestResult
  spawned : Bool
  tempCreated : Bool
  tempExistsAfter : Bool
  cmd : Option (List String)
  test' : EAPTest
deriving Repr, DecidableEq

/-- Python dict lookup on the association-list model. -/
def dictGet (d : List (String × String)) (k : String) : Option String :=
  (d.find? (fun p => p.1 == k)).map Prod.snd

/-- Python dict assignment `d[k] = v`: replace in place if the key exists,
otherwise append at the end. -/
def dictSet (d : List (String × String)) (k v : String) : List (String × String) :=
  if (d.find? (fun p => p.1 == k)).isSome then
    d.map (fun p => if p.1 == k then (k, v) else p)
  else d ++ [(k, v)]

/-- `EAPTestor.EAPOL_TEST_BIN`. -/
def EAPOL_TEST_BIN : String := "eapol_test"

/-- The fixed list of path-like settings keys checked by `run_test`'s
pre-flight validation loop. -/
def path_keys : List String :=
  ["certificate_file", "private_key_file", "ca_cert", "pac_file"]

/-- `key in test.config and test.config[key] and not os.path.exists(test.config[key])`:
the key is present, truthy (non-empty string) and names a path absent from disk. -/
def invalidPath (fs : List String) (cfg : List (String × String)) (k : String) : Bool :=
  match dictGet cfg k with
  | some v => v != "" && !(fs.contains v)
  | none => false

/-- The first settings key (in the fixed order of `path_keys`) whose value fails
the existence check — the validation loop returns on the first hit. -/
def firstInvalidKey (fs : List String) (cfg : List (String × String)) : Option String :=
  path_keys.find? (invalidPath fs cfg)

/-- `EAPTestor.run_test`, with `EAPTestor.update_key` inlined at its single call
site.  Faithful to the control flow of the Python code:

1. disabled test → return the `skipped` dict;
2. `dry_run` → return the `dry_run` dict;
3. path validation → on the first invalid key, return the `failed` dict with the
   `Invalid {key}: {path} does not exist` message;
4. create the temp artifact (`delete=False`), then `update_key`: the dict
   mutation `config_data["private_key_passwd"] = ...` executes first, then the
   file write, whose failure is re-raised — `run_test` has no handler around
   this call, so the exception escapes and the artifact is never unlinked;
5. build the argument list, run the process inside `try/except/finally`:
   exit 0 → `success`, `CalledProcessError` → `failed` with stderr,
   `FileNotFoundError` → `failed` with `"eapol_test not found"`; the `finally`
   attempts `os.unlink` of the temp artifact on each of these paths, inside its
   own `try/except` that downgrades an unlink failure to a warning — so the
   artifact still exists afterwards exactly when that unlink failed, and the
   returned result is unaffected either way. -/
def run_test (w : World) (server : Server) (dry_run : Bool) (test : EAPTest) : RunOutput :=
  if test.enabled = false then
    { result := some { name := test.name, status := "skipped", error := none },
      spawned := false, tempCreated := false, tempExistsAfter := false,
      cmd := none, test' := test }
  else if dry_run = true then
    { result := some { name := test.name, status := "dry_run", error := none },
      spawned := false, tempCreated := false, tempExistsAfter := false,
      cmd := none, test' := test }
  else
    match firstInvalidKey w.fs test.config with
    | some k =>
      let msg : String :=
        "Invalid " ++ k ++ ": " ++ (dictGet test.config k).getD "" ++ " does not exist"
      { result := some { name := test.name, status := "failed", error := some msg },
        spawned := false, tempCreated := false, tempExistsAfter := false,
        cmd := none, test' := test }
    | none =>
      let mutated : EAPTest :=
        { test with
          config := dictSet test.config "private_key_passwd" server.private_key_password }
      if w.updateWriteOk = false then
        { result := none, spawned := false, tempCreated := true, tempExistsAfter := true,
          cmd := none, test' := mutated }
      else
        let cmd : List String :=
          [EAPOL_TEST_BIN,
           "-c", w.tempName,
           "-a", server.ipaddress,
           "-p", toString server.port,
           "-s", server.secretkey,
           "-r", "0",
           "-M", server.identity,
           "-o"] ++
          (if test.requires_password then ["-P", server.password] else [])
        let res : TestResult :=
          match w.proc with
          | ProcBehavior.exits code stderr =>
            if code = 0 then { name := test.name, status := "success", error := none }
            else { name := test.name, status := "failed", error := some stderr }
          | ProcBehavior.execMissing =>
            { name := test.name, status := "failed",
              error := some (EAPOL_TEST_BIN ++ " not found") }
        { result := some res, spawned := true, tempCreated := true,
          tempExistsAfter := !w.unlinkOk, cmd := some cmd, test' := mutated }

/-- The Python return value of `run_test` when it returns normally (projection
used to state order/aggregation facts about runs that raise no exception). -/
def run_result (w : World) (server : Server) (dry_run : Bool) (test : EAPTest) : TestResult :=
  ((run_test w server dry_run test).result).getD
    { name := test.name, status := "", error := none }

/-- `[test for test in self.tests if test.enabled]` in `run_all_tests`. -/
def enabled_tests (tests : List EAPTest) : List EAPTest :=
  tests.filter (fun t => t.enabled)

/-- The sequential loop of `run_all_tests`: run each test in order, collecting
its result dict; a `run_test` call whose exception propagates (modelled by
`result = none`) aborts the loop, dropping the partial results and letting the
exception escape (`Except.error ()`). -/
def collect_results (env : EAPTest → World) (server : Server) (dry_run : Bool) :
    List EAPTest → Except Unit (List TestResult)
  | [] => Except.ok []
  | t :: ts =>
    match (run_test (env t) server dry_run t).result with
    | none => Except.error ()
    | some r =>
      match collect_results env server dry_run ts with
      | Except.error e => Except.error e
      | Except.ok rs => Except.ok (r :: rs)

/-- `EAPTestor.run_all_tests` (sequential branch): filter to enabled tests and
run them in catalog order.  An empty enabled list yields the empty report, as in
the Python early return. -/
def run_all_tests (env : EAPTest → World) (server : Server) (dry_run : Bool)
    (tests : List EAPTest) : Except Unit (List TestResult) :=
  collect_results env server dry_run (enabled_tests tests)

/-- The parallel branch's worker pool: workers finish in an arbitrary schedule
`σ` of input indices, each producing its input's index paired with its result. -/
def completions (σ : List Nat) (jobs : List EAPTest) (f : EAPTest → TestResult) :
    List (Nat × TestResult) :=
  σ.filterMap (fun i => (jobs.get? i).map (fun j => (i, f j)))

/-- `list(executor.map(self.run_test, enabled_tests))`: `ThreadPoolExecutor.map`
hands results back indexed by input position, whatever the completion schedule;
`none` at a position means the schedule never completed that job. -/
def pool_collect (σ : List Nat) (jobs : List EAPTest) (f : EAPTest → TestResult) :
    List (Option TestResult) :=
  (List.range jobs.length).map
    (fun i => ((completions σ jobs f).find? (fun p => p.1 == i)).map Prod.snd)

/-- The fixed catalog built by `EAPTestor.define_tests` from the `eap_methods`
mapping: seven methods in a fixed order, with `requires_password` a constant
per method. -/
structure MethodConfig where
  enabled : Bool
  config : List (String × String)
deriving Repr, DecidableEq

/-- `EAPTestor.define_tests`. -/
def define_tests (eap_methods : String → MethodConfig) : List EAPTest :=
  [{ name := "tls", config := (eap_methods "tls").config,
     requires_password := false, enabled := (eap_methods "tls").enabled },
   { name := "ttls_tls", config := (eap_methods "ttls_tls").config,
     requires_password := false, enabled := (eap_methods "ttls_tls").enabled },
   { name := "peap_tls", config := (eap_methods "peap_tls").config,
     requires_password := false, enabled := (eap_methods "peap_tls").enabled },
   { name := "peap_mschapv2", config := (eap_methods "peap_mschapv2").config,
     requires_password := true, enabled := (eap_methods "peap_mschapv2").enabled },
   { name := "ttls_md5", config := (eap_methods "ttls_md5").config,
     requires_password := true, enabled := (eap_methods "ttls_md5").enabled },
   { name := "ttls_mschapv2", config := (eap_methods "ttls_mschapv2").config,
     requires_password := true, enabled := (eap_methods "ttls_mschapv2").enabled },
   { name := "eap_fast", config := (eap_methods "eap_fast").config,
     requires_password := true, enabled := (eap_methods "eap_fast").enabled }]

/-- The sensitive server keys overridable from the environment in
`config.load_config`. -/
def override_keys : List String := ["secretkey", "private_key_password", "password"]

/-- `server[key] = env_value` for the three overridable keys (any other key is
untouched — the loop only visits the fixed list). -/
def setServerField (s : Server) (key v : String) : Server :=
  if key = "secretkey" then { s with secretkey := v }
  else if key = "private_key_password" then { s with private_key_password := v }
  else if key = "password" then { s with password := v }
  else s

/-- Python's `str.upper()` on the ASCII key names: character-wise upper-casing
(structural recursion over the character list, so it evaluates). -/
def pyUpper (s : String) : String := String.mk (s.data.map Char.toUpper)

/-- The environment-override loop at the end of `config.load_config`:
`for key in [...]: env_value = os.getenv(f"EAPTESTOR_{key.upper()}");
if env_value: server[key] = env_value`.  The guard is Python truthiness, so an
unset variable (`none`) or an empty string leaves the document value in place. -/
def applyEnvOverrides (getenv : String → Option String) (server : Server) : Server :=
  override_keys.foldl
    (fun s key =>
      match getenv ("EAPTESTOR_" ++ pyUpper key) with
      | some v => if v != "" then setServerField s key v else s
      | none => s)
    server

-- Concrete fixtures used by counterexample and witness theorems.

/-- A concrete server configuration. -/
def sampleServer : Server :=
  { ipaddress := "192.0.2.1", port := 1812, secretkey := "s3cret",
    private_key_password := "kpw", identity := "testuser", password := "pw" }

/-- An enabled test whose `certificate_file` names a path absent from disk. -/
def badPathTest : EAPTest :=
  { name := "tls", config := [("certificate_file", "/nope")],
    requires_password := false, enabled := true }

/-- An enabled password-requiring test with no path-like settings. -/
def plainTest : EAPTest :=
  { name := "peap_mschapv2", config := [], requires_password := true, enabled := true }

/-- An enabled certificate test with no path-like settings. -/
def tlsTest : EAPTest :=
  { name := "tls", config := [], requires_password := false, enabled := true }

/-- A disabled test. -/
def disabledTest : EAPTest :=
  { name := "tls", config := [], requires_password := false, enabled := false }

/-- A world where everything succeeds and the process exits 0. -/
def okWorld : World :=
  { fs := [], tempName := "/tmp/tmp0.conf", updateWriteOk := true, unlinkOk := true,
    proc := ProcBehavior.exits 0 "" }

/-- A world where rewriting the temp artifact in `update_key` fails. -/
def failWriteWorld : World :=
  { fs := [], tempName := "/tmp/tmp1.conf", updateWriteOk := false, unlinkOk := true,
    proc := ProcBehavior.exits 0 "" }

/-- A world where the `eapol_test` binary is missing. -/
def missingBinWorld : World :=
  { fs := [], tempName := "/tmp/tmp2.conf", updateWriteOk := true, unlinkOk := true,
    proc := ProcBehavior.execMissing }

/-- A world where the process exits 1 with stderr `auth rejected`. -/
def rejectWorld : World :=
  { fs := [], tempName := "/tmp/tmp3.conf", updateWriteOk := true, unlinkOk := true,
    proc := ProcBehavior.exits 1 "auth rejected" }

/-- A world where the process exits 0 but the best-effort `os.unlink` of the
temp artifact fails. -/
def unlinkFailWorld : World :=
  { fs := [], tempName := "/tmp/tmp4.conf", updateWriteOk := true, unlinkOk := false,
    proc := ProcBehavior.exits 0 "" }

/-- Every test's `run_test` call sees the all-success world. -/
def okEnv : EAPTest → World := fun _ => okWorld

/-- Every test's `run_test` call sees the failing-artifact-write world. -/
def failWriteEnv : EAPTest → World := fun _ => failWriteWorld

/-- A methods mapping enabling only `tls`, with an empty settings dict. -/
def sampleMethods : String → MethodConfig :=
  fun methodName =>
    if methodName = "tls" then { enabled := true, config := [] }
    else { enabled := false, config := [] }

/-!
## Helper lemmas
-/

/-- When the `update_key` rewrite of the temp artifact succeeds, `run_test`
returns normally (its Python return value exists). -/
theorem run_test_result_isSome
    (w : World) (s : Server) (d : Bool) (t : EAPTest) (h : w.updateWriteOk = true) :
    ((run_test w s d t).result).isSome = true := by
  unfold run_test
  split
  · rfl
  · split
    · rfl
    · split
      · rfl
      · simp [h]

/-- The normal return value of `run_test` under a successful artifact write is
exactly `run_result`. -/
theorem run_test_result_eq_run_result
    (w : World) (s : Server) (d : Bool) (t : EAPTest) (h : w.updateWriteOk = true) :
    (run_test w s d t).result = some (run_result w s d t) := by
  have hs := run_test_result_isSome w s d t h
  unfold run_result
  rcases hx : (run_test w s d t).result with _ | r
  · rw [hx] at hs
    simp at hs
  · simp

/-- The sequential loop returns the in-order list of per-test results when no
`run_test` call raises. -/
theorem collect_results_ok
    (env : EAPTest → World) (s : Server) (d : Bool) (l : List EAPTest)
    (h : ∀ t ∈ l, (env t).updateWriteOk = true) :
    collect_results env s d l
      = Except.ok (l.map (fun t => run_result (env t) s d t)) := by
  induction l with
  | nil => rfl
  | cons t ts ih =>
    have ht : (run_test (env t) s d t).result = some (run_result (env t) s d t) :=
      run_test_result_eq_run_result (env t) s d t (h t (List.mem_cons_self t ts))
    have hts := ih (fun x hx => h x (List.mem_cons_of_mem _ hx))
    simp [collect_results, ht, hts]

/-- In the worker-pool model, looking up input index `i` among the completed
jobs finds exactly job `i`'s result, for any schedule that completed it. -/
theorem completions_find_eq
    (σ : List Nat) (jobs : List EAPTest) (f : EAPTest → TestResult) (i : Nat)
    (hi : i < jobs.length) (hmem : i ∈ σ) :
    (completions σ jobs f).find? (fun p => p.1 == i) = some (i, f jobs[i]) := by
  induction σ with
  | nil => exact absurd hmem (List.not_mem_nil i)
  | cons j σ ih =>
    unfold completions
    rw [List.filterMap_cons]
    rcases hj : jobs.get? j with _ | x
    · have hji : j ≠ i := by
        intro he
        rw [he] at hj
        rw [List.get?_eq_getElem?, List.getElem?_eq_getElem hi] at hj
        exact Option.noConfusion hj
      have hmem' : i ∈ σ := by
        rcases List.mem_cons.mp hmem with he | hm
        · exact absurd he.symm hji
        · exact hm
      simpa [completions] using ih hmem'
    · simp only [Option.map_some']
      by_cases hji : j = i
      · subst hji
        rw [List.get?_eq_getElem?, List.getElem?_eq_getElem hi] at hj
        have hx : x = jobs[j] := (Option.some.inj hj).symm
        subst hx
        rw [List.find?_cons_of_pos]
        simp
      · rw [List.find?_cons_of_neg]
        · have hmem' : i ∈ σ := by
            rcases List.mem_cons.mp hmem with he | hm
            · exact absurd he.symm hji
            · exact hm
          simpa [completions] using ih hmem'
        · simp [hji]

/-- `executor.map` aggregation: for any completion schedule covering every
input index, the pool hands back exactly the in-order list of results. -/
theorem pool_collect_eq_map
    (σ : List Nat) (jobs : List EAPTest) (f : EAPTest → TestResult)
    (hσ : ∀ i, i < jobs.length → i ∈ σ) :
    pool_collect σ jobs f = (jobs.map f).map some := by
  unfold pool_collect
  refine List.ext_getElem (by simp) ?_
  intro i h1 h2
  have hi : i < jobs.length := by simpa using h1
  simp only [List.getElem_map, List.getElem_range]
  rw [completions_find_eq σ jobs f i hi (hσ i hi)]
  simp

/-!
## Claims
-/

/-- C1 counterexample: for an enabled, non-dry-run test whose
`certificate_file` names a non-existent path, `run_test` returns status
`"failed"` — not `"failed_validation"` — though it spawns no process. -/
theorem run_test_missing_path_not_failed_validation :
    (run_test okWorld sampleServer false badPathTest).result
      = some { name := "tls", status := "failed",
               error := some "Invalid certificate_file: /nope does not exist" } ∧
    "failed" ≠ "failed_validation" ∧
    (run_test okWorld sampleServer false badPathTest).spawned = false := by
  refine ⟨by decide, by decide, by decide⟩

/-- C1 (amended): for every enabled test case not in dry-run mode with a
path-like settings key present, non-empty and naming a path absent from disk,
`run_test` returns the outcome `failed` (the code has no `failed_validation`
status) with an error detail naming the first such missing path, and no
process is spawned and no temp artifact is created. -/
theorem run_test_missing_path_fails_without_spawn
    (w : World) (s : Server) (t : EAPTest) (k : String)
    (ht : t.enabled = true) (hk : firstInvalidKey w.fs t.config = some k) :
    (run_test w s false t).result
      = some { name := t.name, status := "failed",
               error := some ("Invalid " ++ k ++ ": " ++ (dictGet t.config k).getD ""
                 ++ " does not exist") } ∧
    (run_test w s false t).spawned = false ∧
    (run_test w s false t).tempCreated = false := by
  unfold run_test
  rw [ht, hk]
  simp

/-- C1 witness: the amended statement evaluated on a concrete enabled test whose
`certificate_file` is `/nope` while the disk holds no files. -/
theorem run_test_missing_path_fails_without_spawn_witness :
    (run_test okWorld sampleServer false badPathTest).result
      = some { name := badPathTest.name, status := "failed",
               error := some ("Invalid " ++ "certificate_file" ++ ": "
                 ++ (dictGet badPathTest.config "certificate_file").getD ""
                 ++ " does not exist") } ∧
    (run_test okWorld sampleServer false badPathTest).spawned = false ∧
    (run_test okWorld sampleServer false badPathTest).tempCreated = false :=
  run_test_missing_path_fails_without_spawn okWorld sampleServer badPathTest
    "certificate_file" rfl rfl

/-- C2 counterexample: `run_test` on a concrete enabled test mutates the
canonical test object: `update_key` injects `private_key_passwd` into the
test's own settings dict, no working copy is taken. -/
theorem run_test_mutation_counterexample :
    (run_test okWorld sampleServer false plainTest).test' ≠ plainTest ∧
    (run_test okWorld sampleServer false plainTest).test'.config
      = [("private_key_passwd", "kpw")] := by
  refine ⟨by decide, by decide⟩

/-- C2 (amended): `run_test` leaves the test's name, `requires_password` flag
and `enabled` flag unchanged, but whenever it reaches artifact creation
(enabled, not dry-run, path validation passed) it mutates the canonical
test case's settings mapping in place, setting `private_key_passwd` to the
server's `private_key_password`; no working copy of the settings is used. -/
theorem run_test_mutates_canonical_settings
    (w : World) (s : Server) (d : Bool) (t : EAPTest) :
    (run_test w s d t).test'.name = t.name ∧
    (run_test w s d t).test'.requires_password = t.requires_password ∧
    (run_test w s d t).test'.enabled = t.enabled ∧
    (run_test w s d t).test'.config =
      (if t.enabled = true ∧ d = false ∧ firstInvalidKey w.fs t.config = none
       then dictSet t.config "private_key_passwd" s.private_key_password
       else t.config) := by
  cases ht : t.enabled with
  | false => simp [run_test, ht]
  | true =>
    cases d with
    | true => simp [run_test, ht]
    | false =>
      cases hk : firstInvalidKey w.fs t.config with
      | some k => simp [run_test, ht, hk]
      | none =>
        cases hw : w.updateWriteOk with
        | false => simp [run_test, ht, hk, hw]
        | true => simp [run_test, ht, hk, hw]

/-- C3 counterexample: two exit paths on which the temp artifact still exists
after `run_test`: (a) the `update_key` rewrite fails — its exit path never
reaches the `finally` that holds the unlink, so the created file survives; and
(b) even a fully successful run leaves the file behind when the best-effort
`os.unlink` fails, since that failure is caught and only warned about. -/
theorem run_test_temp_leak_counterexample :
    ((run_test failWriteWorld sampleServer false plainTest).tempCreated = true ∧
     (run_test failWriteWorld sampleServer false plainTest).tempExistsAfter = true) ∧
    ((run_test unlinkFailWorld sampleServer false plainTest).result
        = some { name := "peap_mschapv2", status := "success", error := none } ∧
     (run_test unlinkFailWorld sampleServer false plainTest).tempExistsAfter = true) := by
  refine ⟨⟨by decide, by decide⟩, ⟨by decide, by decide⟩⟩

/-- C3 (amended): when the `update_key` rewrite of the artifact succeeds, the
temporary configuration artifact exists after `run_test` exits exactly when it
was created and the best-effort `os.unlink` failed: on every exit path that
reaches process invocation (success, process failure, executable missing) the
artifact is deleted provided the unlink succeeds, while a failed unlink is
downgraded to a warning and leaves the artifact behind; and when the
`update_key` write fails, the exception propagates and the artifact is left
behind (counterexample). -/
theorem run_test_temp_deleted_best_effort
    (w : World) (s : Server) (d : Bool) (t : EAPTest) (h : w.updateWriteOk = true) :
    (run_test w s d t).tempExistsAfter
      = ((run_test w s d t).tempCreated && !w.unlinkOk) := by
  unfold run_test
  split
  · rfl
  · split
    · rfl
    · split
      · rfl
      · simp [h]

/-- C3 witness: the amended statement evaluated on a concrete enabled test in
the all-success world, where the artifact is created and deleted. -/
theorem run_test_temp_deleted_best_effort_witness :
    (run_test okWorld sampleServer false tlsTest).tempExistsAfter
      = ((run_test okWorld sampleServer false tlsTest).tempCreated && !okWorld.unlinkOk) :=
  run_test_temp_deleted_best_effort okWorld sampleServer false tlsTest rfl

/-- C4 counterexample: an artifact-write failure in `update_key` propagates out
of `run_test` (modelled by `result = none`), and in a sequential run it aborts
the sibling test: the run raises instead of producing a report. -/
theorem run_test_artifact_write_failure_propagates :
    (run_test failWriteWorld sampleServer false tlsTest).result = none ∧
    run_all_tests failWriteEnv sampleServer false [tlsTest, plainTest]
      = Except.error () := by
  exact ⟨rfl, rfl⟩

/-- C4 (amended): `run_test` returns a result on the disabled, dry-run,
validation-failure and all process-execution paths; only an artifact-write
failure in `update_key` escapes the test-case boundary. -/
theorem run_test_returns_result_when_artifact_write_succeeds
    (w : World) (s : Server) (d : Bool) (t : EAPTest) (h : w.updateWriteOk = true) :
    ∃ r, (run_test w s d t).result = some r ∧ r.name = t.name := by
  refine ⟨run_result w s d t, run_test_result_eq_run_result w s d t h, ?_⟩
  unfold run_result run_test
  split
  · rfl
  · split
    · rfl
    · split
      · rfl
      · simp only [h]
        simp
        cases w.proc with
        | exits code stderr =>
          by_cases hc : code = 0 <;> simp [hc]
        | execMissing => rfl

/-- C4 witness: the amended statement evaluated on a concrete enabled test in
the all-success world. -/
theorem run_test_returns_result_witness :
    ∃ r, (run_test okWorld sampleServer false plainTest).result = some r
      ∧ r.name = plainTest.name :=
  run_test_returns_result_when_artifact_write_succeeds okWorld sampleServer false
    plainTest rfl

/-- C5 counterexample: a run over a catalog holding one disabled test produces
the empty report — it contains no entry at all for the disabled test, in
particular not the `skipped` entry the claim requires. -/
theorem run_all_tests_no_skipped_entry_counterexample :
    run_all_tests okEnv sampleServer false [disabledTest] = Except.ok [] ∧
    (Except.ok [] : Except Unit (List TestResult))
      ≠ Except.ok [{ name := "tls", status := "skipped", error := none }] := by
  refine ⟨rfl, ?_⟩
  intro hc
  injection hc with hl
  simp at hl

/-- C5 (amended): `run_all_tests` filters disabled tests out of the run before
executing anything, so the report contains no entry for a disabled test in any
mode (both the sequential loop and the parallel pool operate on the filtered
list); `run_test` itself, if invoked directly on a disabled test, returns the
`skipped` result. -/
theorem run_all_tests_drops_disabled
    (env : EAPTest → World) (s : Server) (d : Bool)
    (pre post : List EAPTest) (t : EAPTest) (h : t.enabled = false) :
    enabled_tests (pre ++ t :: post) = enabled_tests (pre ++ post) ∧
    run_all_tests env s d (pre ++ t :: post) = run_all_tests env s d (pre ++ post) ∧
    (run_test (env t) s d t).result
      = some { name := t.name, status := "skipped", error := none } := by
  have hfil : enabled_tests (pre ++ t :: post) = enabled_tests (pre ++ post) := by
    simp [enabled_tests, List.filter_append, List.filter_cons, h]
  refine ⟨hfil, ?_, ?_⟩
  · unfold run_all_tests
    rw [hfil]
  · unfold run_test
    rw [h]
    simp

/-- C5 witness: the amended statement evaluated on a catalog holding exactly
one disabled test. -/
theorem run_all_tests_drops_disabled_witness :
    enabled_tests ([] ++ disabledTest :: []) = enabled_tests ([] ++ []) ∧
    run_all_tests okEnv sampleServer false ([] ++ disabledTest :: [])
      = run_all_tests okEnv sampleServer false ([] ++ []) ∧
    (run_test (okEnv disabledTest) sampleServer false disabledTest).result
      = some { name := disabledTest.name, status := "skipped", error := none } :=
  run_all_tests_drops_disabled okEnv sampleServer false [] [] disabledTest rfl

/-- C6: for every test case that reaches process invocation, the argument list
is in the fixed order: executable, `-c` artifact path, `-a` address, `-p` port,
`-s` secret, `-r` `0`, `-M` identity, `-o`, with `-P` password appended exactly
when the test's `requires_password` flag is true. -/
theorem run_test_cmd_fixed_order
    (w : World) (s : Server) (t : EAPTest)
    (ht : t.enabled = true) (hk : firstInvalidKey w.fs t.config = none)
    (hw : w.updateWriteOk = true) :
    (run_test w s false t).cmd
      = some ([EAPOL_TEST_BIN, "-c", w.tempName, "-a", s.ipaddress,
               "-p", toString s.port, "-s", s.secretkey, "-r", "0",
               "-M", s.identity, "-o"] ++
              (if t.requires_password then ["-P", s.password] else [])) := by
  unfold run_test
  rw [ht, hk, hw]
  simp

/-- C6 witness: the fixed argument order evaluated on a concrete
password-requiring test in the all-success world. -/
theorem run_test_cmd_fixed_order_witness :
    (run_test okWorld sampleServer false plainTest).cmd
      = some ([EAPOL_TEST_BIN, "-c", okWorld.tempName, "-a", sampleServer.ipaddress,
               "-p", toString sampleServer.port, "-s", sampleServer.secretkey, "-r", "0",
               "-M", sampleServer.identity, "-o"] ++
              (if plainTest.requires_password then ["-P", sampleServer.password] else [])) :=
  run_test_cmd_fixed_order okWorld sampleServer plainTest rfl rfl rfl

/-- C7 counterexample: when the executable is missing, the error detail of the
`failed` result is the executable's name followed by ` not found` —
`"eapol_test not found"` — not the literal string `"executable not found"`. -/
theorem run_test_missing_executable_detail_counterexample :
    (run_test missingBinWorld sampleServer false tlsTest).result
      = some { name := "tls", status := "failed",
               error := some "eapol_test not found" } ∧
    some "eapol_test not found" ≠ some "executable not found" := by
  refine ⟨by decide, by decide⟩

/-- C7 (amended): for every invoked test case, process execution is classified
as: exit zero → `success` with no error detail; non-zero exit → `failed` with
the captured stderr as the detail; executable missing → `failed` with detail
`"eapol_test not found"` (the executable's name plus ` not found`). -/
theorem run_test_classifies_process_outcome
    (w : World) (s : Server) (t : EAPTest)
    (ht : t.enabled = true) (hk : firstInvalidKey w.fs t.config = none)
    (hw : w.updateWriteOk = true) :
    (∀ e, w.proc = ProcBehavior.exits 0 e →
      (run_test w s false t).result
        = some { name := t.name, status := "success", error := none }) ∧
    (∀ c e, w.proc = ProcBehavior.exits c e → c ≠ 0 →
      (run_test w s false t).result
        = some { name := t.name, status := "failed", error := some e }) ∧
    (w.proc = ProcBehavior.execMissing →
      (run_test w s false t).result
        = some { name := t.name, status := "failed",
                 error := some (EAPOL_TEST_BIN ++ " not found") }) := by
  refine ⟨?_, ?_, ?_⟩
  · intro e hp
    simp [run_test, ht, hk, hw, hp]
  · intro c e hp hc
    simp [run_test, ht, hk, hw, hp, hc]
  · intro hp
    simp [run_test, ht, hk, hw, hp]

/-- C7 witness: a stubbed executable exiting 1 with stderr `auth rejected`
yields the `failed` result whose error detail is exactly `auth rejected`. -/
theorem run_test_classifies_process_outcome_witness :
    (run_test rejectWorld sampleServer false tlsTest).result
      = some { name := tlsTest.name, status := "failed",
               error := some "auth rejected" } :=
  (run_test_classifies_process_outcome rejectWorld sampleServer tlsTest
    rfl rfl rfl).2.1 1 "auth rejected" rfl (by decide)

/-- C8: in dry-run mode, `run_test` on any enabled test case returns the
`dry_run` result before validation, artifact creation or process invocation:
no process is spawned and no temp artifact is created. -/
theorem run_test_dry_run_no_spawn
    (w : World) (s : Server) (t : EAPTest) (ht : t.enabled = true) :
    (run_test w s true t).result
      = some { name := t.name, status := "dry_run", error := none } ∧
    (run_test w s true t).spawned = false ∧
    (run_test w s true t).tempCreated = false := by
  simp [run_test, ht]

/-- C8 witness: the dry-run statement evaluated on a concrete enabled test. -/
theorem run_test_dry_run_no_spawn_witness :
    (run_test okWorld sampleServer true plainTest).result
      = some { name := plainTest.name, status := "dry_run", error := none } ∧
    (run_test okWorld sampleServer true plainTest).spawned = false ∧
    (run_test okWorld sampleServer true plainTest).tempCreated = false :=
  run_test_dry_run_no_spawn okWorld sampleServer plainTest rfl

/-- C9: the environment-override stage of `load_config` sets each of the server
fields `secretkey`, `private_key_password`, `password` to the value of
`EAPTESTOR_SECRETKEY` / `EAPTESTOR_PRIVATE_KEY_PASSWORD` / `EAPTESTOR_PASSWORD`
exactly when that variable is set and non-empty, and keeps the document value
when the variable is unset or empty. -/
theorem load_config_env_overrides (getenv : String → Option String) (s : Server) :
    (applyEnvOverrides getenv s).secretkey =
      (match getenv "EAPTESTOR_SECRETKEY" with
       | some v => if v != "" then v else s.secretkey
       | none => s.secretkey) ∧
    (applyEnvOverrides getenv s).private_key_password =
      (match getenv "EAPTESTOR_PRIVATE_KEY_PASSWORD" with
       | some v => if v != "" then v else s.private_key_password
       | none => s.private_key_password) ∧
    (applyEnvOverrides getenv s).password =
      (match getenv "EAPTESTOR_PASSWORD" with
       | some v => if v != "" then v else s.password
       | none => s.password) := by
  have e1 : "EAPTESTOR_" ++ pyUpper "secretkey" = "EAPTESTOR_SECRETKEY" := by decide
  have e2 : "EAPTESTOR_" ++ pyUpper "private_key_password"
      = "EAPTESTOR_PRIVATE_KEY_PASSWORD" := by decide
  have e3 : "EAPTESTOR_" ++ pyUpper "password" = "EAPTESTOR_PASSWORD" := by decide
  unfold applyEnvOverrides override_keys
  simp only [List.foldl_cons, List.foldl_nil, e1, e2, e3]
  rcases hg1 : getenv "EAPTESTOR_SECRETKEY" with _ | v1 <;>
  rcases hg2 : getenv "EAPTESTOR_PRIVATE_KEY_PASSWORD" with _ | v2 <;>
  rcases hg3 : getenv "EAPTESTOR_PASSWORD" with _ | v3 <;>
  simp only [hg1, hg2, hg3] <;>
  (try split_ifs) <;>
  simp_all [setServerField]

/-- C10: for runs in which every `run_test` call returns normally, the parallel
pool aggregation (`executor.map`, under any completion schedule that finishes
every job) hands back exactly the same result list as the sequential loop, both
ordered by the position of the enabled tests in the catalog. -/
theorem parallel_pool_preserves_catalog_order
    (env : EAPTest → World) (s : Server) (d : Bool) (tests : List EAPTest)
    (σ : List Nat)
    (hok : ∀ t, (env t).updateWriteOk = true)
    (hσ : ∀ i, i < (enabled_tests tests).length → i ∈ σ) :
    pool_collect σ (enabled_tests tests) (fun t => run_result (env t) s d t)
      = ((enabled_tests tests).map (fun t => run_result (env t) s d t)).map some ∧
    run_all_tests env s d tests
      = Except.ok ((enabled_tests tests).map (fun t => run_result (env t) s d t)) := by
  constructor
  · exact pool_collect_eq_map σ (enabled_tests tests) _ hσ
  · unfold run_all_tests
    exact collect_results_ok env s d (enabled_tests tests) (fun t _ => hok t)

/-- C10 witness: the order statement evaluated on the fixed catalog built from
a methods mapping enabling only `tls`, with the one-job schedule `[0]`. -/
theorem parallel_pool_preserves_catalog_order_witness :
    pool_collect [0] (enabled_tests (define_tests sampleMethods))
        (fun t => run_result (okEnv t) sampleServer false t)
      = ((enabled_tests (define_tests sampleMethods)).map
          (fun t => run_result (okEnv t) sampleServer false t)).map some ∧
    run_all_tests okEnv sampleServer false (define_tests sampleMethods)
      = Except.ok ((enabled_tests (define_tests sampleMethods)).map
          (fun t => run_result (okEnv t) sampleServer false t)) :=
  parallel_pool_preserves_catalog_order okEnv sampleServer false
    (define_tests sampleMethods) [0]
    (fun _ => rfl)
    (fun i hi => by
      rw [show (enabled_tests (define_tests sampleMethods)).length = 1 from rfl] at hi
      simp only [List.mem_singleton]
      omega)

end RadiusEAPTester
